import Mathlib

/-! Shallow embedding of `src/basisopt/molecule.py`.

Python values are modelled as follows: `float` as `ℚ` (the claims' numeric
content is exact halving and zero defaults), `int` as `Int`, `None` via
`Option`, a Python `dict` as an insertion-ordered association list, numpy
coordinate arrays as `List ℚ`, and raised exceptions as `Option`/`Except`
results.  The string helpers used by the source (`str.split`, `str.title`,
`float(...)`, `int(...)`) are embedded for the ASCII inputs the claims
quantify over. -/

/-- A shell of the external basis containers; the core treats it as opaque
(spec section 3): an angular-momentum label plus optional legendre data. -/
structure Shell where
  l : String
  leg_params : List (List ℚ)
deriving DecidableEq, Repr

abbrev BasisMap := List (String × List Shell)

abbrev BasisDict := BasisMap

/-- Modelled from the spec: `basis_to_dict` of `basisopt.containers` is not
under `src/`; the spec (section 6) treats the basis (de)serializer pair as
an opaque collaborator whose encoding round-trips, so the encoding is the
identity. -/
def basis_to_dict (b : BasisMap) : BasisDict := b

/-- Modelled from the spec: `dict_to_basis` of `basisopt.containers` is not
under `src/`; the inverse of `basis_to_dict`, modelled as the identity. -/
def dict_to_basis (d : BasisDict) : BasisMap := d

/-- Modelled from the spec: `GROUNDSTATE_MULTIPLICITIES` of `basisopt.data`
is not under `src/`; the spec (section 6) describes it as an element-symbol
to ground-state spin multiplicity (2S+1) lookup whose failure on an unknown
symbol propagates (`none` here models the `AttributeError` raised by
`getattr`). -/
def groundstateMultiplicity : String → Option Int
  | "H" => some 2
  | "He" => some 1
  | "Li" => some 2
  | "C" => some 3
  | "N" => some 4
  | "O" => some 3
  | "F" => some 2
  | "Ne" => some 1
  | _ => none

/-- Python truthiness of an optional integer (`if self.multiplicity:`):
`None` and `0` are falsy. -/
def pytruthy : Option Int → Bool
  | none => false
  | some v => v != 0

/-- Python list indexing `xs[i]`: negative indices count from the end, and
`none` models an `IndexError`. -/
def pyget {α : Type} (xs : List α) (i : Int) : Option α :=
  if 0 ≤ i then xs.get? i.toNat
  else if (-i).toNat ≤ xs.length then xs.get? (xs.length - (-i).toNat)
  else none

/-- Python `s.split(sep)` on character lists; always returns at least one
part, and parts between consecutive separators are empty. -/
def charSplit : List Char → Char → List (List Char)
  | [], _ => [[]]
  | c :: cs, sep =>
    if c = sep then [] :: charSplit cs sep
    else
      match charSplit cs sep with
      | [] => [[c]]
      | p :: ps => (c :: p) :: ps

/-- Value of a digit string. -/
def digitsVal (ds : List Char) : Nat :=
  ds.foldl (fun a c => a * 10 + (c.toNat - '0'.toNat)) 0

/-- Python `float(s)` restricted to plain decimal literals: optional sign,
digits, optionally one point, at least one digit overall.  `none` models a
`ValueError`.  (The builtin also accepts exponents, specials and
surrounding whitespace; those inputs are outside the claims' scope.) -/
def parseDecimal (s : List Char) : Option ℚ :=
  let signed : ℚ × List Char :=
    match s with
    | [] => (1, s)
    | c :: rest =>
      if c = '-' then (-1, rest) else if c = '+' then (1, rest) else (1, s)
  let intPart := signed.2.takeWhile Char.isDigit
  let rest := signed.2.dropWhile Char.isDigit
  match rest with
  | [] =>
    if intPart.isEmpty then none
    else some (signed.1 * (digitsVal intPart : ℚ))
  | c :: frac =>
    if c = '.' then
      if frac.all Char.isDigit && !(intPart.isEmpty && frac.isEmpty) then
        some (signed.1 * ((digitsVal intPart : ℚ)
          + (digitsVal frac : ℚ) / (10 : ℚ) ^ frac.length))
      else none
    else none

/-- Python `int(s)` restricted to optionally signed digit strings with
surrounding whitespace (the form met on the first line of an xyz file). -/
def parsePyInt (s : List Char) : Option Int :=
  let t := ((s.dropWhile Char.isWhitespace).reverse.dropWhile Char.isWhitespace).reverse
  match t with
  | [] => none
  | c :: ds =>
    if c = '-' then
      (if !ds.isEmpty && ds.all Char.isDigit then some (-(digitsVal ds : Int)) else none)
    else if c = '+' then
      (if !ds.isEmpty && ds.all Char.isDigit then some (digitsVal ds : Int) else none)
    else
      (if !t.isEmpty && t.all Char.isDigit then some (digitsVal t : Int) else none)

/-- Helper for `pytitle`: the boolean records whether the previous
character was a letter. -/
def titleAux : Bool → List Char → List Char
  | _, [] => []
  | prev, c :: cs =>
    let cased := c.isAlpha
    let c2 := if cased then (if prev then c.toLower else c.toUpper) else c
    c2 :: titleAux cased cs

/-- Python `str.title()` for ASCII: a letter following a non-letter is
uppercased, a letter following a letter is lowercased. -/
def pytitle (s : String) : String := String.mk (titleAux false s.toList)

/-- Python `d[k] = v` on an insertion-ordered association list. -/
def dictSet (d : List (String × ℚ)) (k : String) (v : ℚ) : List (String × ℚ) :=
  if d.any (fun kv => kv.1 = k) then
    d.map (fun kv => if kv.1 = k then (k, v) else kv)
  else d ++ [(k, v)]

/-- The `Molecule` state (`molecule.py` lines 38-51).  Field `coords`
models the private `_coords` list, `atom_names` models `_atom_names`, and
`results`/`references` model `_results`/`_references`.  Field `coords_attr`
models the distinct attribute named `coords` that `from_dict` (line 302)
creates dynamically on the instance; on every other construction path that
attribute does not exist (`none`). -/
structure Molecule where
  name : String
  charge : Int
  multiplicity : Option Int
  method : String
  basis : BasisMap
  ecps : List (String × String)
  jbasis : Option BasisMap
  jkbasis : Option BasisMap
  atom_names : List String
  dummy_atoms : List Int
  coords : List (List ℚ)
  results : List (String × ℚ)
  references : List (String × ℚ)
  coords_attr : Option (List (List ℚ))
deriving DecidableEq, Repr

/-- `Molecule.__init__` (lines 38-51). -/
def Molecule.init (name : String) (charge : Int) (mult : Option Int) : Molecule :=
  { name := name, charge := charge, multiplicity := mult, method := ""
    basis := [], ecps := [], jbasis := none, jkbasis := none
    atom_names := [], dummy_atoms := [], coords := []
    results := [], references := [], coords_attr := none }

/-- `Molecule.natoms` (lines 177-179). -/
def Molecule.natoms (m : Molecule) : Nat := m.atom_names.length

/-- `Molecule.add_atom` (lines 61-81).  `none` models the `AttributeError`
raised by the ground-state multiplicity lookup on an unresolvable element
when the current multiplicity is falsy (line 77). -/
def Molecule.add_atom (m : Molecule) (element : String) (coord : List ℚ)
    (dummy : Bool) : Option Molecule :=
  match (if pytruthy m.multiplicity then some m.multiplicity
        else (groundstateMultiplicity element).map some) with
  | none => none
  | some mult =>
    some { m with
      multiplicity := mult
      coords := m.coords ++ [coord]
      atom_names := m.atom_names ++ [element]
      dummy_atoms :=
        if dummy then m.dummy_atoms ++ [((m.atom_names ++ [element]).length : Int) - 1]
        else m.dummy_atoms }

/-- `Molecule.add_result` (lines 83-90). -/
def Molecule.add_result (m : Molecule) (name : String) (value : ℚ) : Molecule :=
  { m with results := dictSet m.results name value }

/-- `Molecule.get_result` (lines 92-100): a missing key yields `0.0`
instead of the `KeyError`. -/
def Molecule.get_result (m : Molecule) (name : String) : ℚ :=
  match List.lookup name m.results with
  | some v => v
  | none => 0

/-- `Molecule.add_reference` (lines 102-104). -/
def Molecule.add_reference (m : Molecule) (name : String) (value : ℚ) : Molecule :=
  { m with references := dictSet m.references name value }

/-- `Molecule.get_reference` (lines 106-111). -/
def Molecule.get_reference (m : Molecule) (name : String) : ℚ :=
  match List.lookup name m.references with
  | some v => v
  | none => 0

/-- `Molecule.get_delta` (lines 113-117). -/
def Molecule.get_delta (m : Molecule) (name : String) : ℚ :=
  m.get_result name - m.get_reference name

/-- Stand-in for Python float formatting inside the f-string of
`get_line`; the claims concern the tab-separated structure of the line,
not the digit rendering. -/
def numRepr (q : ℚ) : String := toString q

/-- The index clamping performed by `get_line` (lines 172-173). -/
def clampIdx (i : Int) (n : Nat) : Int := min (max i 0) ((n : Int) - 1)

/-- `Molecule.get_line` (lines 159-175); `none` models an `IndexError`
raised by `self._atom_names[ix]`, `self._coords[ix]` or `c[0]..c[2]`. -/
def Molecule.get_line (m : Molecule) (i : Int) (pre suf : String) : Option String :=
  let ix := clampIdx i m.atom_names.length
  match pyget m.atom_names ix, pyget m.coords ix with
  | some n, some c =>
    match pyget c 0, pyget c 1, pyget c 2 with
    | some x, some y, some z =>
      some (pre ++ n ++ suf ++ "\t" ++ numRepr x ++ "\t" ++ numRepr y
        ++ "\t" ++ numRepr z)
    | _, _, _ => none
  | _, _ => none

/-- `Molecule.set_ecps` (lines 185-193): a dict comprehension keeping the
entries whose title-cased key is a currently present atom name. -/
def Molecule.set_ecps (m : Molecule) (ecp_dict : List (String × String)) : Molecule :=
  { m with ecps := ecp_dict.filter (fun kv => decide (pytitle kv.1 ∈ m.atom_names)) }

/-- `Molecule.set_dummy_atoms` (lines 195-208); Python's `list(set(...))`
is modelled by `List.dedup` (the set's iteration order is unspecified and
the claims are order-independent). -/
def Molecule.set_dummy_atoms (m : Molecule) (indices : List Int)
    (overwrite : Bool) : Molecule :=
  let valid := indices.filter (fun ix => decide (0 ≤ ix ∧ ix < (m.natoms : Int)))
  let da := if overwrite then valid else m.dummy_atoms ++ valid
  { m with dummy_atoms := da.dedup }

/-- The dictionary produced and consumed by `as_dict`/`from_dict`; `none`
models an absent key.  The `multiplicity` entry can itself hold Python
`None`, hence the nested option. -/
structure MoleculeRecord where
  module_tag : Option String
  class_tag : Option String
  name : Option String
  charge : Option Int
  multiplicity : Option (Option Int)
  method : Option String
  basis : Option BasisDict
  ecps : Option (List (String × String))
  atom_names : Option (List String)
  dummy_atoms : Option (List Int)
  coords : Option (List (List ℚ))
  results : Option (List (String × ℚ))
  references : Option (List (String × ℚ))
  jbasis : Option BasisDict
  jkbasis : Option BasisDict
deriving DecidableEq, Repr

/-- A record with every key absent. -/
def emptyRecord : MoleculeRecord :=
  { module_tag := none, class_tag := none, name := none, charge := none
    multiplicity := none, method := none, basis := none, ecps := none
    atom_names := none, dummy_atoms := none, coords := none, results := none
    references := none, jbasis := none, jkbasis := none }

/-- Python truthiness of the optional `jbasis`/`jkbasis` dictionaries
(`if self.jbasis:` on lines 274 and 276): `None` and the empty dict are
falsy. -/
def basisTruthy : Option BasisMap → Bool
  | none => false
  | some [] => false
  | some (_ :: _) => true

/-- `Molecule.as_dict` (lines 253-278). -/
def Molecule.as_dict (m : Molecule) : MoleculeRecord :=
  { module_tag := some "basisopt.molecule", class_tag := some "Molecule"
    name := some m.name, charge := some m.charge
    multiplicity := some m.multiplicity, method := some m.method
    basis := some (basis_to_dict m.basis), ecps := some m.ecps
    atom_names := some m.atom_names, dummy_atoms := some m.dummy_atoms
    coords := some m.coords, results := some m.results
    references := some m.references
    jbasis := if basisTruthy m.jbasis then m.jbasis.map basis_to_dict else none
    jkbasis := if basisTruthy m.jkbasis then m.jkbasis.map basis_to_dict else none }

/-- Modelled from the spec: `dict_decode` of `basisopt.util` is not under
`src/`; the spec (section 4.2) describes it as a generic decode pass
resolving nested serialized sub-objects, modelled as the identity on
records. -/
def dict_decode (d : MoleculeRecord) : MoleculeRecord := d

/-- `Molecule.from_dict` (lines 280-305).  Line 302 of the source assigns
`instance.coords` — a fresh attribute — rather than the private `_coords`
list read everywhere else; accordingly the `coords_attr` field is set here
while the `coords` field keeps the constructor's empty list. -/
def Molecule.from_dict (d0 : MoleculeRecord) : Molecule :=
  let d := dict_decode d0
  let inst := Molecule.init (d.name.getD "Untitled") (d.charge.getD 0)
    (d.multiplicity.getD (some 1))
  { inst with
    method := d.method.getD ""
    basis := dict_to_basis (d.basis.getD [])
    ecps := d.ecps.getD []
    jbasis := d.jbasis
    jkbasis := d.jkbasis
    atom_names := d.atom_names.getD []
    dummy_atoms := d.dummy_atoms.getD []
    coords_attr := some (d.coords.getD [])
    results := d.results.getD []
    references := d.references.getD [] }

/-- Python `line.split()`: split on whitespace runs, discarding empties. -/
def pywords (s : String) : List String :=
  (s.split Char.isWhitespace).filter (fun w => w ≠ "")

/-- One line of the xyz body (lines 137-140): `words[0]` is the element
(`none` models the `IndexError` on a blank line) and `words[1:4]` are
parsed with `float` (`none` models a `ValueError`; fewer than three
coordinate words are accepted, as by the slice). -/
def parseAtomLine (line : String) : Option (String × List ℚ) :=
  match pywords line with
  | [] => none
  | w :: rest =>
    ((rest.take 3).mapM (fun t => parseDecimal t.toList)).map (fun cs => (w, cs))

/-- The loop of lines 137-141: atoms are added until a line fails to parse
or `add_atom` raises; the partially populated instance survives because
the exception is caught by the handlers on lines 142-145. -/
def addAtomsFromLines (inst : Molecule) : List String → Molecule
  | [] => inst
  | l :: ls =>
    match parseAtomLine l with
    | none => inst
    | some (el, co) =>
      match inst.add_atom el co false with
      | none => inst
      | some inst2 => addAtomsFromLines inst2 ls

/-- `Molecule.from_xyz` (lines 119-146).  The file argument is `none` for
an I/O failure while opening or reading; every failure path returns the
(possibly empty or partial) instance, since the source catches `IOError`
and `Exception` and merely logs. -/
def Molecule.from_xyz (file : Option (List String)) (name : String)
    (charge : Int) (mult : Int) : Molecule :=
  let inst := Molecule.init name charge (some mult)
  match file with
  | none => inst
  | some lines =>
    match lines.head? with
    | none => inst
    | some l0 =>
      match parsePyInt l0.toList with
      | none => inst
      | some natAtoms => addAtomsFromLines inst ((lines.drop 2).take natAtoms.toNat)

/-- The failure kinds of `build_diatomic`: Python's `IndexError`, the
`ValueError` from `float`, the repository's `InvalidDiatomic`, and the
`AttributeError` an unresolvable element would raise inside `add_atom`. -/
inductive BuildErr where
  | indexError
  | valueError
  | invalidDiatomic
  | attributeError
deriving DecidableEq, Repr

/-- Lines 330-356: the recognized diatomic formula patterns (first
character uppercase; the length-2, length-3 and length-4 rules in source
order), giving the two element symbols. -/
def diatomicAtoms : List Char → Option (String × String)
  | [c0, c1] =>
    if c0.isUpper then
      if c1 = '2' then some (String.mk [c0], String.mk [c0])
      else if c1.isUpper then some (String.mk [c0], String.mk [c1])
      else none
    else none
  | [c0, c1, c2] =>
    if c0.isUpper then
      if c2 = '2' then some (String.mk [c0, c1], String.mk [c0, c1])
      else if c1.isUpper then some (String.mk [c0], String.mk [c1, c2])
      else if c1.isLower then some (String.mk [c0, c1], String.mk [c2])
      else none
    else none
  | [c0, c1, c2, c3] =>
    if c0.isUpper then
      if c2.isUpper then some (String.mk [c0, c1], String.mk [c2, c3])
      else none
    else none
  | _ => none

/-- `build_diatomic` (lines 308-363).  The source computes
`float(parts[1])` (line 329) before inspecting the formula, so a missing
or non-numeric separation fails before any pattern check, and an empty
formula fails at `chars[0]` (line 333) with an `IndexError`. -/
def build_diatomic (mol_str : String) (charge : Int) (mult : Int) :
    Except BuildErr Molecule :=
  let molecule := Molecule.init (mol_str ++ "_Diatomic") charge (some mult)
  let parts := charSplit mol_str.toList ','
  let chars := parts.headD []
  match pyget parts 1 with
  | none => Except.error BuildErr.indexError
  | some p1 =>
    match parseDecimal p1 with
    | none => Except.error BuildErr.valueError
    | some rval =>
      match chars with
      | [] => Except.error BuildErr.indexError
      | _ :: _ =>
        match diatomicAtoms chars with
        | none => Except.error BuildErr.invalidDiatomic
        | some (a1, a2) =>
          match molecule.add_atom a1 [0, 0, -0.5 * rval] false with
          | none => Except.error BuildErr.attributeError
          | some m1 =>
            match m1.add_atom a2 [0, 0, 0.5 * rval] false with
            | none => Except.error BuildErr.attributeError
            | some m2 => Except.ok m2

/-- A molecule with one hydrogen at the origin, built through the
constructor and `add_atom` with multiplicity given as 1. -/
def mH : Molecule :=
  match (Molecule.init "Untitled" 0 (some 1)).add_atom "H" [0, 0, 0] false with
  | some m => m
  | none => Molecule.init "unreachable" 0 none

/-- A molecule with one helium atom, used for the ecps filtering claims. -/
def mHe : Molecule :=
  match (Molecule.init "q" 0 (some 1)).add_atom "He" [0, 0, 0] false with
  | some m => m
  | none => Molecule.init "unreachable2" 0 none

/-- A molecule whose multiplicity was explicitly set to 3 at
construction. -/
def mW : Molecule :=
  match (Molecule.init "w" 0 (some 3)).add_atom "H" [0, 0, 0] false with
  | some m => m
  | none => Molecule.init "unreachable3" 0 none

/-- A record carrying an ecps entry but no atoms. -/
def recBadEcps : MoleculeRecord :=
  { emptyRecord with ecps := some [("He", "ecp1")], atom_names := some [] }

/-- A record carrying an out-of-range dummy index and no atoms. -/
def recBadDummy : MoleculeRecord :=
  { emptyRecord with dummy_atoms := some [5] }

/-- The dummy-atom invariant of the claims: every stored index is a valid
atom index and there are no duplicates. -/
abbrev dummyInv (m : Molecule) : Prop :=
  (∀ ix ∈ m.dummy_atoms, 0 ≤ ix ∧ ix < (m.natoms : Int)) ∧ m.dummy_atoms.Nodup

/-- What a successful `add_atom` does to the bookkeeping fields: the atom
symbol and its coordinate are appended co-indexed, name and charge are
untouched, the dummy list gains the new index exactly when requested, and
a truthy multiplicity is kept as it was. -/
theorem add_atom_spec (m : Molecule) (el : String) (co : List ℚ) (dm : Bool)
    (m2 : Molecule) (h : m.add_atom el co dm = some m2) :
    m2.name = m.name ∧ m2.charge = m.charge ∧
    m2.atom_names = m.atom_names ++ [el] ∧
    m2.coords = m.coords ++ [co] ∧
    m2.dummy_atoms = (if dm then m.dummy_atoms ++ [(m.atom_names.length : Int)]
      else m.dummy_atoms) ∧
    (pytruthy m.multiplicity = true → m2.multiplicity = m.multiplicity) := by
  unfold Molecule.add_atom at h
  split at h
  · exact absurd h (by simp)
  · rename_i mult heq
    have h2 := Option.some.inj h
    subst h2
    refine ⟨rfl, rfl, rfl, rfl, ?_, ?_⟩
    · have hl : ((m.atom_names ++ [el]).length : Int) - 1 = (m.atom_names.length : Int) := by
        simp
      rw [hl]
    · intro hpy
      rw [hpy] at heq
      simp at heq
      simp [heq]

/-- Claim C1 (code evidence): the serialization round-trip loses the
coordinates.  `from_dict` (line 302) stores the record's coordinate list
in a fresh `coords` attribute instead of the private `_coords`, so the
reconstructed molecule's geometry is empty while the other claimed fields
survive; shown here on a one-atom molecule. -/
theorem roundtrip_coords_lost :
    (Molecule.from_dict (Molecule.as_dict mH)).name = mH.name ∧
    (Molecule.from_dict (Molecule.as_dict mH)).atom_names = mH.atom_names ∧
    (Molecule.from_dict (Molecule.as_dict mH)).multiplicity = mH.multiplicity ∧
    (Molecule.from_dict (Molecule.as_dict mH)).coords = [] ∧
    mH.coords = [[0, 0, 0]] ∧
    (Molecule.from_dict (Molecule.as_dict mH)).coords ≠ mH.coords := by
  refine ⟨rfl, rfl, rfl, rfl, rfl, ?_⟩
  decide

/-- Claim C2 (code evidence): after the `from_dict` factory the atom list
and the coordinate list are no longer the same length — the record's
coordinates never reach `_coords` (line 302 stores them in a fresh
attribute), even for a record produced by `as_dict` of a co-indexed
molecule. -/
theorem from_dict_breaks_coindexing :
    (Molecule.from_dict (Molecule.as_dict mH)).atom_names.length = 1 ∧
    (Molecule.from_dict (Molecule.as_dict mH)).coords.length = 0 ∧
    mH.atom_names.length = mH.coords.length := by
  decide

/-- Claim C4 counterexample: the empty formula with a present, numeric
separation raises an `IndexError` at `chars[0]` (line 333), not the
dedicated `InvalidDiatomic` the claim promises for every formula that
matches no recognized pattern. -/
theorem build_diatomic_empty_formula_index_error :
    build_diatomic ",1.0" 0 1 = Except.error BuildErr.indexError ∧
    BuildErr.indexError ≠ BuildErr.invalidDiatomic := by
  exact ⟨rfl, by decide⟩

/-- Claim C7 counterexample: a multiplicity explicitly set to the integer
0 is falsy for the `if self.multiplicity:` test on line 74, so `add_atom`
silently replaces it with the added element's ground-state value (2 for
hydrogen) instead of leaving it equal to 0. -/
theorem add_atom_overwrites_zero_multiplicity :
    ((Molecule.init "M" 0 (some 0)).add_atom "H" [0, 0, 0] false).map
      Molecule.multiplicity = some (some 2) ∧ (some 2 : Option Int) ≠ some 0 := by
  decide

/-- Claim C9 counterexample: on an empty molecule `get_line` clamps the
index to -1 and `self._atom_names[-1]` raises an `IndexError`, so the
call fails instead of returning a line. -/
theorem get_line_empty_fails :
    (Molecule.init "Untitled" 0 none).get_line 0 "" "" = none := by
  decide

/-- Claim C6 counterexample: `from_dict` (line 297) installs the record's
ecps mapping verbatim without filtering, so a record with an ecps entry
and no atoms yields a state whose ecps key set is not a subset of the
present element symbols. -/
theorem from_dict_ecps_unfiltered :
    (Molecule.from_dict recBadEcps).ecps = [("He", "ecp1")] ∧
    (Molecule.from_dict recBadEcps).atom_names = [] ∧
    ¬ ∀ kv ∈ (Molecule.from_dict recBadEcps).ecps,
        kv.1 ∈ (Molecule.from_dict recBadEcps).atom_names := by
  refine ⟨rfl, rfl, ?_⟩
  intro hall
  exact absurd (hall ("He", "ecp1") (by decide)) (by decide)

/-- Claim C8 counterexample: `from_dict` (line 301) installs the record's
dummy-atom list verbatim, so a record carrying dummy index 5 and no atoms
reaches a state that violates the bounds part of the invariant. -/
theorem from_dict_dummy_unchecked :
    (Molecule.from_dict recBadDummy).dummy_atoms = [5] ∧
    (Molecule.from_dict recBadDummy).natoms = 0 ∧
    ¬ dummyInv (Molecule.from_dict recBadDummy) := by
  refine ⟨rfl, rfl, ?_⟩
  intro hinv
  exact absurd (hinv.1 5 (by decide)) (by decide)

/-- Claim C5: a key absent from the results mapping makes `get_result`
return zero rather than fail, symmetrically for `get_reference` on the
references mapping, and `get_delta` of a name set in neither mapping is
zero. -/
theorem missing_keys_zero (m : Molecule) (k : String) :
    (List.lookup k m.results = none → m.get_result k = 0) ∧
    (List.lookup k m.references = none → m.get_reference k = 0) ∧
    (List.lookup k m.results = none → List.lookup k m.references = none →
      m.get_delta k = 0) := by
  refine ⟨fun h => ?_, fun h => ?_, fun h1 h2 => ?_⟩
  · simp [Molecule.get_result, h]
  · simp [Molecule.get_reference, h]
  · simp [Molecule.get_delta, Molecule.get_result, Molecule.get_reference, h1, h2]

theorem missing_keys_zero_witness :
    (Molecule.init "x" 0 none).get_result "missing" = 0 ∧
    (Molecule.init "x" 0 none).get_reference "missing" = 0 ∧
    (Molecule.init "x" 0 none).get_delta "missing" = 0 := by
  have h := missing_keys_zero (Molecule.init "x" 0 none) "missing"
  exact ⟨h.1 rfl, h.2.1 rfl, h.2.2 rfl rfl⟩

/-- Claim C6 (amended): `set_ecps` replaces the whole ecps mapping with
exactly those argument entries whose title-cased key is a currently
present element — so every retained key names a present element once
title-cased — and leaves the atom list untouched; `from_dict`, in
contrast, installs the record's ecps verbatim. -/
theorem set_ecps_filters (m : Molecule) (d : List (String × String)) :
    (m.set_ecps d).ecps
        = d.filter (fun kv => decide (pytitle kv.1 ∈ m.atom_names)) ∧
    (m.set_ecps d).atom_names = m.atom_names ∧
    ∀ kv ∈ (m.set_ecps d).ecps, pytitle kv.1 ∈ m.atom_names := by
  refine ⟨rfl, rfl, fun kv hkv => ?_⟩
  have h := List.of_mem_filter hkv
  simpa using h

theorem set_ecps_filters_witness :
    pytitle "he" ∈ mHe.atom_names ∧
    (mHe.set_ecps [("he", "ecp1"), ("Xx", "e2")]).ecps = [("he", "ecp1")] := by
  constructor
  · exact (set_ecps_filters mHe [("he", "ecp1"), ("Xx", "e2")]).2.2
      ("he", "ecp1") (by decide)
  · decide

/-- Claim C7 (amended): once the multiplicity holds a nonzero integer —
the values Python's truthiness test accepts — `add_atom` never changes
it; the value 0, like `None`, counts as unset and is overwritten by the
ground-state lookup of the added element. -/
theorem add_atom_preserves_multiplicity (m : Molecule) (el : String)
    (co : List ℚ) (dm : Bool) (v : Int) (m2 : Molecule)
    (hv : m.multiplicity = some v) (hnz : v ≠ 0)
    (h : m.add_atom el co dm = some m2) : m2.multiplicity = some v := by
  have hpy : pytruthy m.multiplicity = true := by
    rw [hv]
    simpa [pytruthy] using hnz
  have hs := add_atom_spec m el co dm m2 h
  rw [hs.2.2.2.2.2 hpy, hv]

theorem add_atom_preserves_multiplicity_witness : mW.multiplicity = some 3 := by
  have h : (Molecule.init "w" 0 (some 3)).add_atom "H" [0, 0, 0] false = some mW := by
    rfl
  exact add_atom_preserves_multiplicity (Molecule.init "w" 0 (some 3)) "H"
    [0, 0, 0] false 3 mW rfl (by decide) h

/-- Claim C8 (amended): the dummy-atom invariant — every index in bounds
and no duplicates — holds after construction, is preserved by every
successful `add_atom`, and is (re)established by `set_dummy_atoms`;
`from_dict` alone installs the record's list unvalidated. -/
theorem dummy_atoms_invariant :
    (∀ n c mu, dummyInv (Molecule.init n c mu)) ∧
    (∀ (m : Molecule) el co dm (m2 : Molecule), dummyInv m →
      m.add_atom el co dm = some m2 → dummyInv m2) ∧
    (∀ (m : Molecule) idxs ow, dummyInv m →
      dummyInv (m.set_dummy_atoms idxs ow)) := by
  refine ⟨fun n c mu => ⟨by simp [Molecule.init], by simp [Molecule.init]⟩,
    fun m el co dm m2 hinv h => ?_, fun m idxs ow hinv => ?_⟩
  · have hs := add_atom_spec m el co dm m2 h
    have hnat : (m2.natoms : Int) = (m.natoms : Int) + 1 := by
      simp [Molecule.natoms, hs.2.2.1]
    have hda : m2.dummy_atoms = m.dummy_atoms ++ [(m.atom_names.length : Int)] ∨
        m2.dummy_atoms = m.dummy_atoms := by
      have h5 := hs.2.2.2.2.1
      cases dm
      · right; simpa using h5
      · left; simpa using h5
    have hnodup_app : (m.dummy_atoms ++ [(m.atom_names.length : Int)]).Nodup := by
      rw [List.nodup_append]
      refine ⟨hinv.2, List.nodup_singleton _, fun a ha hb => ?_⟩
      have hlt := (hinv.1 a ha).2
      have he : a = (m.atom_names.length : Int) := by simpa using hb
      rw [he] at hlt
      simp [Molecule.natoms] at hlt
    constructor
    · intro ix hix
      rw [hnat]
      rcases hda with he | he <;> rw [he] at hix
      · rcases List.mem_append.mp hix with hold | hnew
        · have := hinv.1 ix hold
          omega
        · have he2 : ix = (m.atom_names.length : Int) := by simpa using hnew
          subst he2
          refine ⟨by positivity, ?_⟩
          simp only [Molecule.natoms]
          omega
      · have := hinv.1 ix hix
        omega
    · rcases hda with he | he <;> rw [he]
      · exact hnodup_app
      · exact hinv.2
  · have hda2 : (m.set_dummy_atoms idxs ow).dummy_atoms
        = (idxs.filter (fun ix => decide (0 ≤ ix ∧ ix < (m.natoms : Int)))).dedup ∨
      (m.set_dummy_atoms idxs ow).dummy_atoms
        = (m.dummy_atoms ++ idxs.filter
            (fun ix => decide (0 ≤ ix ∧ ix < (m.natoms : Int)))).dedup := by
      cases ow
      · right; simp [Molecule.set_dummy_atoms]
      · left; simp [Molecule.set_dummy_atoms]
    have hnat : (m.set_dummy_atoms idxs ow).natoms = m.natoms := by
      simp [Molecule.set_dummy_atoms, Molecule.natoms]
    constructor
    · intro ix hix
      rw [hnat]
      rcases hda2 with he | he <;> rw [he, List.mem_dedup] at hix
      · have := List.of_mem_filter hix
        simpa using this
      · rcases List.mem_append.mp hix with hold | hnew
        · exact hinv.1 ix hold
        · have := List.of_mem_filter hnew
          simpa using this
    · rcases hda2 with he | he <;> rw [he] <;> exact List.nodup_dedup _

theorem dummy_atoms_invariant_witness :
    dummyInv mH ∧ dummyInv (mH.set_dummy_atoms [0, 0, 5] true) := by
  have h := dummy_atoms_invariant
  have h0 : dummyInv (Molecule.init "Untitled" 0 (some 1)) :=
    h.1 "Untitled" 0 (some 1)
  have h1 : dummyInv mH :=
    h.2.1 (Molecule.init "Untitled" 0 (some 1)) "H" [0, 0, 0] false mH h0 rfl
  exact ⟨h1, h.2.2 mH [0, 0, 5] true h1⟩

/-- A nonnegative in-range Python index reads the list like `getD`. -/
theorem pyget_eq_getD {α : Type} (xs : List α) (i : Int) (d : α)
    (h0 : 0 ≤ i) (hlt : i.toNat < xs.length) :
    pyget xs i = some (xs.getD i.toNat d) := by
  unfold pyget
  rw [if_pos h0, List.getD_eq_get?]
  cases hq : xs.get? i.toNat with
  | none => exact absurd (List.get?_eq_none.mp hq) (by omega)
  | some v => rfl

/-- Claim C9 (amended): on a molecule with at least one atom whose
coordinate list is co-indexed with three-component entries, `get_line`
never fails — the index is clamped into `[0, natoms-1]` and the
tab-separated prefix-element-suffix, x, y, z line of the clamped atom is
returned.  (On an empty molecule the clamp produces -1 and the atom
lookup raises, hence the hypotheses.) -/
theorem get_line_clamps (m : Molecule) (i : Int) (pre suf : String)
    (hne : m.atom_names ≠ [])
    (hlen : m.coords.length = m.atom_names.length)
    (h3 : ∀ c ∈ m.coords, c.length = 3) :
    0 ≤ clampIdx i m.atom_names.length ∧
    (clampIdx i m.atom_names.length).toNat < m.atom_names.length ∧
    m.get_line i pre suf = some (pre
      ++ m.atom_names.getD (clampIdx i m.atom_names.length).toNat "" ++ suf
      ++ "\t" ++ numRepr ((m.coords.getD (clampIdx i m.atom_names.length).toNat []).getD 0 0)
      ++ "\t" ++ numRepr ((m.coords.getD (clampIdx i m.atom_names.length).toNat []).getD 1 0)
      ++ "\t" ++ numRepr ((m.coords.getD (clampIdx i m.atom_names.length).toNat []).getD 2 0)) := by
  have hn : 0 < m.atom_names.length := List.length_pos.mpr hne
  have h0 : (0 : Int) ≤ clampIdx i m.atom_names.length := by
    refine le_min (le_max_right i 0) ?_
    omega
  have hub : clampIdx i m.atom_names.length ≤ (m.atom_names.length : Int) - 1 :=
    min_le_right _ _
  have hlt : (clampIdx i m.atom_names.length).toNat < m.atom_names.length := by
    omega
  have hltc : (clampIdx i m.atom_names.length).toNat < m.coords.length := by
    omega
  have hg1 := pyget_eq_getD m.atom_names (clampIdx i m.atom_names.length) "" h0 hlt
  have hg2 := pyget_eq_getD m.coords (clampIdx i m.atom_names.length) [] h0 hltc
  have hcmem : m.coords.getD (clampIdx i m.atom_names.length).toNat [] ∈ m.coords := by
    rw [List.getD_eq_get?]
    cases hq : m.coords.get? (clampIdx i m.atom_names.length).toNat with
    | none => exact absurd (List.get?_eq_none.mp hq) (by omega)
    | some v => exact List.get?_mem hq
  have hc3 := h3 _ hcmem
  have hgx := pyget_eq_getD (m.coords.getD (clampIdx i m.atom_names.length).toNat [])
    0 0 (by omega) (by omega)
  have hgy := pyget_eq_getD (m.coords.getD (clampIdx i m.atom_names.length).toNat [])
    1 0 (by omega) (by omega)
  have hgz := pyget_eq_getD (m.coords.getD (clampIdx i m.atom_names.length).toNat [])
    2 0 (by omega) (by omega)
  refine ⟨h0, hlt, ?_⟩
  simp only [Molecule.get_line, hg1, hg2, hgx, hgy, hgz]
  rfl

theorem get_line_clamps_witness : mH.get_line 5 "" "" = some "H\t0\t0\t0" := by
  have h := get_line_clamps mH 5 "" "" (by decide) (by decide) (by decide)
  rw [h.2.2]
  rfl

/-- Header fields and list co-indexing survive the xyz atom-adding loop,
whether the loop finishes or stops early at a malformed line. -/
theorem addAtomsFromLines_fields (ls : List String) (inst : Molecule) :
    (addAtomsFromLines inst ls).name = inst.name ∧
    (addAtomsFromLines inst ls).charge = inst.charge ∧
    (inst.coords.length = inst.atom_names.length →
      (addAtomsFromLines inst ls).coords.length
        = (addAtomsFromLines inst ls).atom_names.length) := by
  induction ls generalizing inst with
  | nil => exact ⟨rfl, rfl, id⟩
  | cons l ls ih =>
    simp only [addAtomsFromLines]
    cases hp : parseAtomLine l with
    | none => simp [hp]
    | some pr =>
      obtain ⟨el, co⟩ := pr
      simp only [hp]
      cases ha : inst.add_atom el co false with
      | none => simp [hp, ha]
      | some inst2 =>
        simp only [ha]
        have hs := add_atom_spec inst el co false inst2 ha
        have hih := ih inst2
        refine ⟨hih.1.trans hs.1, hih.2.1.trans hs.2.1, fun hco => ?_⟩
        apply hih.2.2
        rw [hs.2.2.1, hs.2.2.2.1]
        simp [hco]

/-- Claim C10: `from_xyz` never propagates a failure to the caller — for
every file outcome (I/O error, missing or malformed header, malformed
atom lines, unresolvable element) it returns a Molecule carrying the
requested name and charge whose atom and coordinate lists are
co-indexed. -/
theorem from_xyz_returns_instance (file : Option (List String)) (n : String)
    (c mu : Int) :
    (Molecule.from_xyz file n c mu).name = n ∧
    (Molecule.from_xyz file n c mu).charge = c ∧
    (Molecule.from_xyz file n c mu).coords.length
      = (Molecule.from_xyz file n c mu).atom_names.length := by
  cases file with
  | none => exact ⟨rfl, rfl, rfl⟩
  | some lines =>
    simp only [Molecule.from_xyz]
    cases hh : lines.head? with
    | none => simp only [hh]; exact ⟨rfl, rfl, rfl⟩
    | some l0 =>
      simp only [hh]
      cases hp : parsePyInt l0.toList with
      | none => simp only [hp]; exact ⟨rfl, rfl, rfl⟩
      | some k =>
        simp only [hp]
        have h := addAtomsFromLines_fields ((lines.drop 2).take k.toNat)
          (Molecule.init n c (some mu))
        exact ⟨h.1, h.2.1, h.2.2 rfl⟩

/-- Splitting a separator-free string yields the single whole part. -/
theorem charSplit_no_sep (l : List Char) (h : ',' ∉ l) : charSplit l ',' = [l] := by
  induction l with
  | nil => rfl
  | cons c cs ih =>
    have hc : ¬ c = ',' := fun e => h (by simp [e])
    have hcs : ',' ∉ cs := fun e => h (by simp [e])
    simp [charSplit, hc, ih hcs]

/-- Splitting around one separator yields exactly the two parts. -/
theorem charSplit_pair (f tail : List Char) (hf : ',' ∉ f) (ht : ',' ∉ tail) :
    charSplit (f ++ ',' :: tail) ',' = [f, tail] := by
  induction f with
  | nil => simp [charSplit, charSplit_no_sep tail ht]
  | cons c cs ih =>
    have hc : ¬ c = ',' := fun e => hf (by simp [e])
    have hcs : ',' ∉ cs := fun e => hf (by simp [e])
    simp [charSplit, hc, ih hcs]

/-- Claim C3: for every diatomic specification whose formula matches a
recognized pattern and whose separation is a decimal literal,
`build_diatomic` succeeds with the two-atom molecule named
`<spec>_Diatomic`, atom1 at `(0,0,-separation/2)` and atom2 at
`(0,0,+separation/2)`. -/
theorem build_diatomic_ok (f sepStr : String) (r : ℚ) (a1 a2 : String)
    (hf : ',' ∉ f.toList) (hs : ',' ∉ sepStr.toList)
    (hpat : diatomicAtoms f.toList = some (a1, a2))
    (hsep : parseDecimal sepStr.toList = some r) :
    build_diatomic (f ++ "," ++ sepStr) 0 1 = Except.ok
      { name := f ++ "," ++ sepStr ++ "_Diatomic", charge := 0
        multiplicity := some 1, method := "", basis := [], ecps := []
        jbasis := none, jkbasis := none, atom_names := [a1, a2]
        dummy_atoms := [], coords := [[0, 0, -(r / 2)], [0, 0, r / 2]]
        results := [], references := [], coords_attr := none } := by
  have hlist : (f ++ "," ++ sepStr).toList = f.toList ++ ',' :: sepStr.toList := by
    show (f ++ "," ++ sepStr).data = f.data ++ ',' :: sepStr.data
    rw [String.data_append, String.data_append]
    simp
  have hsplit : charSplit (f ++ "," ++ sepStr).toList ',' = [f.toList, sepStr.toList] := by
    rw [hlist]
    exact charSplit_pair f.toList sepStr.toList hf hs
  obtain ⟨c0, rest, hchars⟩ : ∃ c0 rest, f.toList = c0 :: rest := by
    cases hfl : f.toList with
    | nil => rw [hfl] at hpat; exact absurd hpat (by simp [diatomicAtoms])
    | cons c0 rest => exact ⟨c0, rest, rfl⟩
  rw [hchars] at hpat
  simp only [build_diatomic, hsplit, hchars]
  have hp1 : pyget [c0 :: rest, sepStr.toList] (1 : Int) = some sepStr.toList := rfl
  simp only [List.headD_cons, hp1, hsep, hpat]
  norm_num [Molecule.add_atom, pytruthy, Molecule.init]
  ring

theorem build_diatomic_ok_witness :
    build_diatomic "NO,1.3" 0 1 = Except.ok
      { name := "NO,1.3_Diatomic", charge := 0, multiplicity := some 1
        method := "", basis := [], ecps := [], jbasis := none, jkbasis := none
        atom_names := ["N", "O"], dummy_atoms := []
        coords := [[0, 0, -(13 / 20 : ℚ)], [0, 0, (13 / 20 : ℚ)]]
        results := [], references := [], coords_attr := none } := by
  have hsep : parseDecimal "1.3".toList = some (13 / 10 : ℚ) := by
    simp [parseDecimal, digitsVal]
    norm_num
  have h := build_diatomic_ok "NO" "1.3" (13 / 10) "N" "O" (by decide) (by decide)
    (by decide) hsep
  norm_num at h
  exact h

/-- Claim C4 (amended): with a present, numeric separation every nonempty
formula matching no recognized pattern fails with the dedicated
`InvalidDiatomic`; a missing separation fails with an `IndexError` and a
non-numeric one with a `ValueError` (an empty formula also hits the
`IndexError`, before any pattern check); the invalid-diatomic kind is
distinct from the index/value kinds, so callers can tell the failures
apart. -/
theorem build_diatomic_errors :
    (∀ (f sepStr : String) (r : ℚ) (charge mult : Int), ',' ∉ f.toList →
      ',' ∉ sepStr.toList → f.toList ≠ [] → diatomicAtoms f.toList = none →
      parseDecimal sepStr.toList = some r →
      build_diatomic (f ++ "," ++ sepStr) charge mult
        = Except.error BuildErr.invalidDiatomic) ∧
    (∀ (f : String) (charge mult : Int), ',' ∉ f.toList →
      build_diatomic f charge mult = Except.error BuildErr.indexError) ∧
    (∀ (f sepStr : String) (charge mult : Int), ',' ∉ f.toList →
      ',' ∉ sepStr.toList → parseDecimal sepStr.toList = none →
      build_diatomic (f ++ "," ++ sepStr) charge mult
        = Except.error BuildErr.valueError) ∧
    (BuildErr.invalidDiatomic ≠ BuildErr.indexError ∧
     BuildErr.invalidDiatomic ≠ BuildErr.valueError) := by
  have hlist : ∀ f sepStr : String,
      (f ++ "," ++ sepStr).toList = f.toList ++ ',' :: sepStr.toList := by
    intro f sepStr
    show (f ++ "," ++ sepStr).data = f.data ++ ',' :: sepStr.data
    rw [String.data_append, String.data_append]
    simp
  refine ⟨fun f sepStr r charge mult hf hs hne hpat hsep => ?_,
    fun f charge mult hf => ?_,
    fun f sepStr charge mult hf hs hsep => ?_, by decide, by decide⟩
  · have hsplit : charSplit (f ++ "," ++ sepStr).toList ','
        = [f.toList, sepStr.toList] := by
      rw [hlist]
      exact charSplit_pair f.toList sepStr.toList hf hs
    obtain ⟨c0, rest, hchars⟩ : ∃ c0 rest, f.toList = c0 :: rest := by
      cases hfl : f.toList with
      | nil => exact absurd hfl hne
      | cons c0 rest => exact ⟨c0, rest, rfl⟩
    rw [hchars] at hpat
    simp only [build_diatomic, hsplit, hchars]
    have hp1 : pyget [c0 :: rest, sepStr.toList] (1 : Int) = some sepStr.toList := rfl
    simp only [List.headD_cons, hp1, hsep, hpat]
  · have hsplit : charSplit f.toList ',' = [f.toList] := charSplit_no_sep f.toList hf
    simp only [build_diatomic, hsplit]
    have hp1 : pyget [f.toList] (1 : Int) = none := rfl
    simp only [hp1]
  · have hsplit : charSplit (f ++ "," ++ sepStr).toList ','
        = [f.toList, sepStr.toList] := by
      rw [hlist]
      exact charSplit_pair f.toList sepStr.toList hf hs
    simp only [build_diatomic, hsplit]
    have hp1 : pyget [f.toList, sepStr.toList] (1 : Int) = some sepStr.toList := rfl
    simp only [List.headD_cons, hp1, hsep]

theorem build_diatomic_errors_witness :
    build_diatomic "He,1.0" 0 1 = Except.error BuildErr.invalidDiatomic ∧
    build_diatomic "NO" 0 1 = Except.error BuildErr.indexError ∧
    build_diatomic "NO,abc" 0 1 = Except.error BuildErr.valueError := by
  have h := build_diatomic_errors
  have hsep : parseDecimal "1.0".toList = some (1 : ℚ) := by
    simp [parseDecimal, digitsVal]
  refine ⟨?_, h.2.1 "NO" 0 1 (by decide), ?_⟩
  · exact h.1 "He" "1.0" 1 0 1 (by decide) (by decide) (by decide) (by decide) hsep
  · exact h.2.2.1 "NO" "abc" 0 1 (by decide) (by decide) (by rfl)
